import Mathlib

/-!
Verification of the authenticated HTTP service in `src/apis/main.py`.

The service is embedded shallowly: the SQLite-backed store becomes an explicit
`Store` value threaded through every operation, endpoints become pure functions
returning `Except HTTPError`, and wall-clock time, the bcrypt salt and the
current date become explicit parameters.  The two external libraries the auth
core delegates to (passlib's bcrypt_sha256 context and python-jose's JWT
encode/decode) are modelled from the specification's description of them.
-/

namespace Api

/-! ### Configuration (`main.py` lines 14-17) -/

def SECRET_KEY : String := "supersecretkey"

def ACCESS_TOKEN_EXPIRE_MINUTES : Nat := 30

/-! ### Credential store -/

/-- Modelled from the spec: the concrete digest computation of passlib's
bcrypt_sha256 scheme is outside the repository; the spec requires only a
salted one-way function recomputable from the plaintext and the embedded
salt.  Any pure function of `(password, salt)` is a faithful abstraction. -/
def hashFn (password : String) (salt : Nat) : Nat :=
  password.data.foldl (fun a c => (a * 31 + c.toNat + salt) % 2 ^ 64) (salt % 2 ^ 64)

/-- An opaque password hash: the random per-call salt together with the
digest of the plaintext under that salt. -/
structure OpaqueHash where
  salt : Nat
  digest : Nat
deriving Repr, DecidableEq

/-- Modelled from the spec: `pwd_context.hash` draws a fresh random salt per
call; the salt is made an explicit parameter. (`main.py` lines 79-80) -/
def hash_password (password : String) (salt : Nat) : OpaqueHash :=
  ⟨salt, hashFn password salt⟩

/-- Modelled from the spec: `pwd_context.verify` recomputes the digest using
the hash's embedded salt and compares. (`main.py` lines 82-83) -/
def verify_password (plain : String) (hashed : OpaqueHash) : Bool :=
  hashFn plain hashed.salt == hashed.digest

/-! ### Token service -/

/-- JWT claim set as used by this service: optional subject plus expiry
(a unix timestamp in seconds). -/
structure Payload where
  sub : Option String
  exp : Nat
deriving Repr, DecidableEq

/-- Modelled from the spec: the HMAC-SHA256 signature over the payload and
the process-wide secret; any pure function of both suffices. -/
def signFn (p : Payload) (secret : String) : Nat :=
  hashFn secret (2 * p.exp + (if p.sub.isSome then 1 else 0)) +
    hashFn (p.sub.getD "") p.exp

/-- A signed token: the (readable) payload together with its signature. -/
structure Token where
  sub : Option String
  exp : Nat
  sig : Nat
deriving Repr, DecidableEq

/-- Modelled from the spec: `jwt.encode` signs the claim set with the
secret. -/
def jwtEncode (p : Payload) (secret : String) : Token :=
  ⟨p.sub, p.exp, signFn p secret⟩

/-- Failures of `jwt.decode` (python-jose raises a `JWTError` subclass). -/
inductive JWTError where
  | invalidSignature
  | expiredSignature
deriving Repr, DecidableEq

/-- Modelled from the spec: `jwt.decode` rejects a bad signature and an
expired token (python-jose treats `exp < now` as expired) and otherwise
returns the claim set. -/
def jwtDecode (t : Token) (secret : String) (now : Nat) : Except JWTError Payload :=
  if t.sig ≠ signFn ⟨t.sub, t.exp⟩ secret then .error .invalidSignature
  else if t.exp < now then .error .expiredSignature
  else .ok ⟨t.sub, t.exp⟩

/-- `create_access_token` (`main.py` lines 85-89): copy the data (here the
`sub` claim), add an expiry `ACCESS_TOKEN_EXPIRE_MINUTES` from now, sign
with the process secret. -/
def create_access_token (sub : String) (now : Nat) : Token :=
  jwtEncode ⟨some sub, now + ACCESS_TOKEN_EXPIRE_MINUTES * 60⟩ SECRET_KEY

/-! ### Data model (`main.py` lines 38-68) -/

structure Department where
  id : Nat
  name : String
  location : String
deriving Repr, DecidableEq

structure User where
  id : Nat
  username : String
  hashed_password : OpaqueHash
  department_id : Option Nat
deriving Repr, DecidableEq

structure Salary where
  id : Nat
  user_id : Nat
  amount : Int
  effective_date : Nat
deriving Repr, DecidableEq

/-- The persistent store: the three tables in insertion order, plus the
autoincrement counters for the integer primary keys. -/
structure Store where
  departments : List Department
  users : List User
  salaries : List Salary
  nextDeptId : Nat
  nextUserId : Nat
  nextSalaryId : Nat
deriving Repr, DecidableEq

def emptyStore : Store := ⟨[], [], [], 1, 1, 1⟩

/-- An `HTTPException` as raised by the endpoints. -/
structure HTTPError where
  status_code : Nat
  detail : String
deriving Repr, DecidableEq

/-! ### Access guard -/

/-- `get_current_user` (`main.py` lines 91-106): decode the bearer token,
require a `sub` claim, resolve it to a user row. -/
def get_current_user (token : Token) (db : Store) (now : Nat) : Except HTTPError User :=
  match jwtDecode token SECRET_KEY now with
  | .error _ => .error ⟨401, "Invalid token"⟩
  | .ok payload =>
    match payload.sub with
    | none => .error ⟨401, "Invalid token"⟩
    | some username =>
      match db.users.find? (fun u => u.username == username) with
      | none => .error ⟨401, "User not found"⟩
      | some user => .ok user

/-- Modelled from the spec: the bearer-token extraction done by FastAPI's
`OAuth2PasswordBearer` dependency rejects a request without a token
before `get_current_user` runs (401, detail "Not authenticated"). -/
def access_guard (tk : Option Token) (db : Store) (now : Nat) : Except HTTPError User :=
  match tk with
  | none => .error ⟨401, "Not authenticated"⟩
  | some t => get_current_user t db now

/-! ### Request/response schemas (`main.py` lines 112-137) -/

structure DepartmentCreate where
  name : String
  location : String
deriving Repr, DecidableEq

structure UserCreate where
  username : String
  password : String
  department_id : Option Nat
deriving Repr, DecidableEq

/-- The response schema for `GET /users`: id, username and department
reference only — no password-derived field. -/
structure UserResponse where
  id : Nat
  username : String
  department_id : Option Nat
deriving Repr, DecidableEq

structure SalaryCreate where
  user_id : Nat
  amount : Int
deriving Repr, DecidableEq

structure LoginResponse where
  access_token : Token
  token_type : String
deriving Repr, DecidableEq

/-! ### Endpoints -/

/-- Python truthiness of the optional integer `user.department_id`:
`None` and `0` are falsy. -/
def truthy : Option Nat → Bool
  | none => false
  | some n => n != 0

/-- `POST /register` (`main.py` lines 149-176).  The guard on the
department check is `if user.department_id:`, i.e. truthiness. -/
def register (u : UserCreate) (db : Store) (salt : Nat) :
    (Except HTTPError String) × Store :=
  if truthy u.department_id &&
      (db.departments.find? (fun d => d.id == u.department_id.getD 0)).isNone then
    (.error ⟨400, "Department not found"⟩, db)
  else if (db.users.find? (fun x => x.username == u.username)).isSome then
    (.error ⟨400, "Username already exists"⟩, db)
  else
    (.ok "User registered successfully",
      { db with
          users := db.users ++
            [⟨db.nextUserId, u.username, hash_password u.password salt, u.department_id⟩],
          nextUserId := db.nextUserId + 1 })

/-- `POST /login` (`main.py` lines 182-197). -/
def login (username password : String) (db : Store) (now : Nat) :
    Except HTTPError LoginResponse :=
  match db.users.find? (fun u => u.username == username) with
  | none => .error ⟨401, "Invalid credentials"⟩
  | some user =>
    if verify_password password user.hashed_password then
      .ok ⟨create_access_token user.username now, "bearer"⟩
    else
      .error ⟨401, "Invalid credentials"⟩

/-- `POST /departments` (`main.py` lines 203-217): no name-uniqueness
check, unconditional insert once the guard passes. -/
def create_department (dept : DepartmentCreate) (tk : Option Token) (db : Store) (now : Nat) :
    (Except HTTPError Department) × Store :=
  match access_guard tk db now with
  | .error e => (.error e, db)
  | .ok _ =>
    (.ok ⟨db.nextDeptId, dept.name, dept.location⟩,
      { db with
          departments := db.departments ++ [⟨db.nextDeptId, dept.name, dept.location⟩],
          nextDeptId := db.nextDeptId + 1 })

/-- `GET /departments` (`main.py` lines 220-224). -/
def get_departments (tk : Option Token) (db : Store) (now : Nat) :
    Except HTTPError (List Department) :=
  match access_guard tk db now with
  | .error e => .error e
  | .ok _ => .ok db.departments

/-- The serialization `response_model=list[UserResponse]` applies to each
user row returned by `GET /users`. -/
def userToResponse (u : User) : UserResponse :=
  ⟨u.id, u.username, u.department_id⟩

/-- `GET /users` (`main.py` lines 230-234). -/
def get_users (tk : Option Token) (db : Store) (now : Nat) :
    Except HTTPError (List UserResponse) :=
  match access_guard tk db now with
  | .error e => .error e
  | .ok _ => .ok (db.users.map userToResponse)

/-- `POST /salary` (`main.py` lines 240-261): explicit owner-existence
check, then insert with `effective_date` defaulting to today. -/
def add_salary (s : SalaryCreate) (tk : Option Token) (db : Store) (now today : Nat) :
    (Except HTTPError String) × Store :=
  match access_guard tk db now with
  | .error e => (.error e, db)
  | .ok _ =>
    match db.users.find? (fun u => u.id == s.user_id) with
    | none => (.error ⟨404, "User not found"⟩, db)
    | some _ =>
      (.ok "Salary added successfully",
        { db with
            salaries := db.salaries ++ [⟨db.nextSalaryId, s.user_id, s.amount, today⟩],
            nextSalaryId := db.nextSalaryId + 1 })

/-- One element of the `salary_history` array returned by
`GET /users/{user_id}`. -/
structure SalaryEntry where
  amount : Int
  effective_date : Nat
deriving Repr, DecidableEq

/-- The joined response of `GET /users/{user_id}`. -/
structure UserDetail where
  id : Nat
  username : String
  department : Option String
  salary_history : List SalaryEntry
deriving Repr, DecidableEq

/-- `GET /users/{user_id}` (`main.py` lines 267-292).  `user.department`
is the SQLAlchemy relationship: it is `None` when `department_id` is
`NULL` or dangling, so the department name is the looked-up row's name
when one matches and `None` otherwise. -/
def get_user_details (user_id : Nat) (tk : Option Token) (db : Store) (now : Nat) :
    Except HTTPError UserDetail :=
  match access_guard tk db now with
  | .error e => .error e
  | .ok _ =>
    match db.users.find? (fun u => u.id == user_id) with
    | none => .error ⟨404, "User not found"⟩
    | some user =>
      .ok ⟨user.id, user.username,
        (match user.department_id with
         | none => none
         | some d => (db.departments.find? (fun dp => dp.id == d)).map Department.name),
        (db.salaries.filter (fun s => s.user_id == user_id)).map
          (fun s => ⟨s.amount, s.effective_date⟩)⟩

/-! ### Concrete fixtures used by the witnesses -/

def aliceHash : OpaqueHash := hash_password "alicepw" 7

def aliceUser : User := ⟨1, "alice", aliceHash, none⟩

/-- A store with one department ("Eng") and one registered user ("alice"). -/
def baseStore : Store := ⟨[⟨1, "Eng", "HQ"⟩], [aliceUser], [], 2, 2, 1⟩

def aliceToken : Token := create_access_token "alice" 0

def bobUser : User := ⟨2, "bob", hash_password "bobpw" 4, some 1⟩

/-- `baseStore` extended with a second user "bob" assigned to department 1
and owning two salary rows. -/
def richStore : Store :=
  ⟨[⟨1, "Eng", "HQ"⟩], [aliceUser, bobUser], [⟨1, 2, 1000, 50⟩, ⟨2, 2, 1100, 80⟩], 2, 3, 3⟩

theorem access_guard_base : access_guard (some aliceToken) baseStore 0 = .ok aliceUser := by
  rfl

/-! ### Helper lemmas -/

theorem find?_append_of_none {α : Type} (p : α → Bool) (l1 l2 : List α)
    (h : l1.find? p = none) : (l1 ++ l2).find? p = l2.find? p := by
  rw [List.find?_append, h, Option.none_or]

/-! ### Claim theorems -/

/-- C1: a token issued by `create_access_token` for subject `s` decodes,
immediately after issuance, to a payload whose `sub` claim is `s`; once
the 30-minute ttl has elapsed (strictly more than 30 minutes after
issuance) `get_current_user` rejects the same token through the 401
"Invalid token" branch, whatever the store. -/
theorem token_roundtrip_and_expiry (s : String) (now now' : Nat) :
    jwtDecode (create_access_token s now) SECRET_KEY now =
      .ok ⟨some s, now + ACCESS_TOKEN_EXPIRE_MINUTES * 60⟩ ∧
    (now + ACCESS_TOKEN_EXPIRE_MINUTES * 60 < now' →
      ∀ db : Store, get_current_user (create_access_token s now) db now' =
        .error ⟨401, "Invalid token"⟩) := by
  constructor
  · simp [jwtDecode, create_access_token, jwtEncode]
  · intro h db
    simp [get_current_user, jwtDecode, create_access_token, jwtEncode, h]

/-- Witness for C1 at s = "alice", issued at time 0, checked at times 0
and 1801 (one second past the 1800-second ttl). -/
theorem token_roundtrip_and_expiry_witness :
    jwtDecode (create_access_token "alice" 0) SECRET_KEY 0 = .ok ⟨some "alice", 1800⟩ ∧
    get_current_user (create_access_token "alice" 0) emptyStore 1801 =
      .error ⟨401, "Invalid token"⟩ :=
  ⟨(token_roundtrip_and_expiry "alice" 0 1801).1,
   (token_roundtrip_and_expiry "alice" 0 1801).2 (by decide) emptyStore⟩

/-- C2: verifying a password against its own hash succeeds, and two
hashing calls with distinct random salts produce distinct opaque
outputs. -/
theorem hash_verify_roundtrip_and_salted (p : String) (s1 s2 : Nat) :
    verify_password p (hash_password p s1) = true ∧
    (s1 ≠ s2 → hash_password p s1 ≠ hash_password p s2) := by
  constructor
  · simp [verify_password, hash_password]
  · intro h hc
    apply h
    simpa [hash_password] using congrArg OpaqueHash.salt hc

/-- Witness for C2 at p = "alicepw" with salts 7 and 8. -/
theorem hash_verify_roundtrip_and_salted_witness :
    verify_password "alicepw" (hash_password "alicepw" 7) = true ∧
    hash_password "alicepw" 7 ≠ hash_password "alicepw" 8 :=
  ⟨(hash_verify_roundtrip_and_salted "alicepw" 7 8).1,
   (hash_verify_roundtrip_and_salted "alicepw" 7 8).2 (by decide)⟩

/-- C9: `create_department` enforces no name-uniqueness constraint: on any
authenticated request, for every store (in particular one already holding
a department with the same name) it succeeds and appends a new row, never
returning a conflict. -/
theorem create_department_no_uniqueness (dc : DepartmentCreate) (tk : Option Token)
    (db : Store) (now : Nat) (u : User) (hauth : access_guard tk db now = .ok u) :
    create_department dc tk db now =
      (.ok ⟨db.nextDeptId, dc.name, dc.location⟩,
        { db with
            departments := db.departments ++ [⟨db.nextDeptId, dc.name, dc.location⟩],
            nextDeptId := db.nextDeptId + 1 }) := by
  simp [create_department, hauth]

/-- Witness for C9: an authenticated request re-creating the department
name "Eng" that `baseStore` already holds succeeds and appends row 2. -/
theorem create_department_no_uniqueness_witness :
    create_department ⟨"Eng", "Berlin"⟩ (some aliceToken) baseStore 0 =
      (.ok ⟨2, "Eng", "Berlin"⟩,
        ⟨[⟨1, "Eng", "HQ"⟩, ⟨2, "Eng", "Berlin"⟩], [aliceUser], [], 3, 2, 1⟩) :=
  create_department_no_uniqueness ⟨"Eng", "Berlin"⟩ (some aliceToken) baseStore 0
    aliceUser (by rfl)

/-- C3 counterexample: a well-signed, unexpired token whose subject
"ghost" resolves to no user is rejected with detail "User not found",
which differs from the "Invalid token" detail of the token-failure
branches — the guard's failure details are distinguishable. -/
theorem guard_details_distinguishable :
    get_current_user (create_access_token "ghost" 0) emptyStore 0 =
      .error ⟨401, "User not found"⟩ ∧
    (HTTPError.mk 401 "User not found") ≠ ⟨401, "Invalid token"⟩ :=
  ⟨by rfl, by decide⟩

/-- C3 amended: every failure of the guard carries status 401, but the
detail message is not uniform: decode failures and a missing subject give
"Invalid token" while a subject that does not resolve to a user gives
"User not found", so a caller can distinguish the two. -/
theorem guard_failure_characterization (t : Token) (db : Store) (now : Nat) :
    (∀ e, get_current_user t db now = .error e → e.status_code = 401) ∧
    (∀ err, jwtDecode t SECRET_KEY now = .error err →
      get_current_user t db now = .error ⟨401, "Invalid token"⟩) ∧
    (∀ p, jwtDecode t SECRET_KEY now = .ok p → p.sub = none →
      get_current_user t db now = .error ⟨401, "Invalid token"⟩) ∧
    (∀ p s, jwtDecode t SECRET_KEY now = .ok p → p.sub = some s →
      db.users.find? (fun u => u.username == s) = none →
      get_current_user t db now = .error ⟨401, "User not found"⟩) := by
  refine ⟨?_, ?_, ?_, ?_⟩
  · intro e h
    unfold get_current_user at h
    split at h
    · injection h with h2; subst h2; rfl
    · split at h
      · injection h with h2; subst h2; rfl
      · split at h
        · injection h with h2; subst h2; rfl
        · exact Except.noConfusion h
  · intro err hdec
    simp [get_current_user, hdec]
  · intro p hdec hsub
    simp [get_current_user, hdec, hsub]
  · intro p s hdec hsub hfind
    simp [get_current_user, hdec, hsub, hfind]

/-- Witness for the amended C3 at the unresolvable subject "ghost". -/
theorem guard_failure_characterization_witness :
    get_current_user (create_access_token "ghost" 0) emptyStore 0 =
      .error ⟨401, "User not found"⟩ :=
  (guard_failure_characterization (create_access_token "ghost" 0) emptyStore 0).2.2.2
    ⟨some "ghost", 1800⟩ "ghost" (by rfl) rfl rfl

/-- C4 counterexample: with "alice" already registered, a second call for
username "alice" that also carries the dangling department reference 7
fails with "Department not found", not the duplicate-username error the
claim promises for every such call. -/
theorem register_duplicate_counterexample :
    (∃ x ∈ baseStore.users, x.username = "alice") ∧
    register ⟨"alice", "pw", some 7⟩ baseStore 5 =
      (.error ⟨400, "Department not found"⟩, baseStore) ∧
    (HTTPError.mk 400 "Department not found") ≠ ⟨400, "Username already exists"⟩ :=
  ⟨⟨aliceUser, by simp [baseStore], rfl⟩, by rfl, by decide⟩

/-- C4 amended: when a user with the requested username already exists,
`register` fails with a 400 error and leaves the store completely
unchanged; the error is specifically "Username already exists" whenever
the department guard passes (reference absent, zero, or resolving). -/
theorem register_duplicate_username (u : UserCreate) (db : Store) (salt : Nat)
    (hdup : ∃ x ∈ db.users, x.username = u.username) :
    (∃ e, (register u db salt).1 = .error e ∧ e.status_code = 400) ∧
    (register u db salt).2 = db ∧
    ((truthy u.department_id = false ∨
        ∃ dp ∈ db.departments, dp.id = u.department_id.getD 0) →
      register u db salt = (.error ⟨400, "Username already exists"⟩, db)) := by
  have hfind : (db.users.find? (fun x => x.username == u.username)).isSome := by
    rw [List.find?_isSome]
    obtain ⟨x, hx, he⟩ := hdup
    exact ⟨x, hx, by simp [he]⟩
  unfold register
  by_cases hguard : (truthy u.department_id &&
      (db.departments.find? (fun d => d.id == u.department_id.getD 0)).isNone) = true
  · rw [if_pos hguard]
    rw [Bool.and_eq_true] at hguard
    obtain ⟨ht, hn⟩ := hguard
    refine ⟨⟨⟨400, "Department not found"⟩, rfl, rfl⟩, rfl, ?_⟩
    rintro (hf | ⟨dp, hdp, hid⟩)
    · rw [ht] at hf; exact absurd hf (by decide)
    · have hsome : (db.departments.find? (fun d => d.id == u.department_id.getD 0)).isSome := by
        rw [List.find?_isSome]
        exact ⟨dp, hdp, by simp [hid]⟩
      rw [Option.isNone_iff_eq_none] at hn
      rw [hn] at hsome
      exact absurd hsome (by decide)
  · rw [if_neg hguard, if_pos hfind]
    exact ⟨⟨⟨400, "Username already exists"⟩, rfl, rfl⟩, rfl, fun _ => rfl⟩

/-- Witness for the amended C4: re-registering "alice" against `baseStore`
with no department reference fails with the duplicate error and returns
the store unchanged. -/
theorem register_duplicate_username_witness :
    register ⟨"alice", "pw2", none⟩ baseStore 9 =
      (.error ⟨400, "Username already exists"⟩, baseStore) :=
  (register_duplicate_username ⟨"alice", "pw2", none⟩ baseStore 9
      ⟨aliceUser, by simp [baseStore], rfl⟩).2.2 (Or.inl rfl)

/-- C5: on an authenticated request, `add_salary` for an owner id that
resolves to no user fails with 404 "User not found" and leaves the store
unchanged; for an owner that exists it appends exactly one salary row
whose `effective_date` defaults to the current date. -/
theorem add_salary_owner_check (s : SalaryCreate) (tk : Option Token) (db : Store)
    (now today : Nat) (cu : User) (hauth : access_guard tk db now = .ok cu) :
    ((∀ x ∈ db.users, x.id ≠ s.user_id) →
      add_salary s tk db now today = (.error ⟨404, "User not found"⟩, db)) ∧
    ((∃ x ∈ db.users, x.id = s.user_id) →
      add_salary s tk db now today =
        (.ok "Salary added successfully",
          { db with
              salaries := db.salaries ++ [⟨db.nextSalaryId, s.user_id, s.amount, today⟩],
              nextSalaryId := db.nextSalaryId + 1 })) := by
  constructor
  · intro hmiss
    have hfind : db.users.find? (fun u => u.id == s.user_id) = none := by
      rw [List.find?_eq_none]
      intro x hx
      simpa using hmiss x hx
    simp [add_salary, hauth, hfind]
  · intro hex
    obtain ⟨x, hx, hid⟩ := hex
    have hfind : (db.users.find? (fun u => u.id == s.user_id)).isSome := by
      rw [List.find?_isSome]
      exact ⟨x, hx, by simp [hid]⟩
    obtain ⟨y, hy⟩ := Option.isSome_iff_exists.mp hfind
    simp [add_salary, hauth, hy]

/-- Witness for C5: against `baseStore`, owner 9999 does not resolve and
the call is rejected without mutation, while owner 1 (alice) exists and
the row `(amount 5000, effective_date 100)` is appended. -/
theorem add_salary_owner_check_witness :
    add_salary ⟨9999, 5000⟩ (some aliceToken) baseStore 0 100 =
      (.error ⟨404, "User not found"⟩, baseStore) ∧
    add_salary ⟨1, 5000⟩ (some aliceToken) baseStore 0 100 =
      (.ok "Salary added successfully",
        ⟨[⟨1, "Eng", "HQ"⟩], [aliceUser], [⟨1, 1, 5000, 100⟩], 2, 2, 2⟩) :=
  ⟨(add_salary_owner_check ⟨9999, 5000⟩ (some aliceToken) baseStore 0 100 aliceUser
      (by rfl)).1 (by decide),
   (add_salary_owner_check ⟨1, 5000⟩ (some aliceToken) baseStore 0 100 aliceUser
      (by rfl)).2 ⟨aliceUser, by simp [baseStore], rfl⟩⟩

/-- Shared helper: with a present, nonzero department reference that no
department row matches, `register` fails with "Department not found" and
leaves the store unchanged. -/
theorem register_dept_missing (u : UserCreate) (db : Store) (salt d : Nat)
    (hd : u.department_id = some d) (hnz : d ≠ 0)
    (hmiss : ∀ dp ∈ db.departments, dp.id ≠ d) :
    register u db salt = (.error ⟨400, "Department not found"⟩, db) := by
  have hfind : db.departments.find? (fun dp => dp.id == u.department_id.getD 0) = none := by
    rw [List.find?_eq_none]
    intro dp hdp
    simpa [hd] using hmiss dp hdp
  simp [register, hd, truthy, hnz, hfind]
  intro x hx hxd
  exact absurd hxd (hmiss x hx)

/-- C6 counterexample: with `department_id = 0` the truthiness guard skips
the existence check, so against the empty store (where no department at
all, in particular none with id 0, exists) registration succeeds and
persists a user whose department reference 0 dangles. -/
theorem register_dept_check_counterexample :
    (∀ dp ∈ emptyStore.departments, dp.id ≠ (0 : Nat)) ∧
    register ⟨"bob", "pw", some 0⟩ emptyStore 3 =
      (.ok "User registered successfully",
        ⟨[], [⟨1, "bob", hash_password "pw" 3, some 0⟩], [], 1, 2, 1⟩) :=
  ⟨by decide, by rfl⟩

/-- C6 amended: for a present NONZERO department reference, `register`
fails with 400 "Department not found" (before creating any row) when the
reference does not resolve, and can succeed only when it resolves; the
`department_id = 0` case escapes the check. -/
theorem register_dept_check_nonzero (u : UserCreate) (db : Store) (salt d : Nat)
    (hd : u.department_id = some d) (hnz : d ≠ 0) :
    ((∀ dp ∈ db.departments, dp.id ≠ d) →
      register u db salt = (.error ⟨400, "Department not found"⟩, db)) ∧
    (∀ r, (register u db salt).1 = .ok r → ∃ dp ∈ db.departments, dp.id = d) := by
  refine ⟨register_dept_missing u db salt d hd hnz, ?_⟩
  intro r hr
  by_contra hnone
  push_neg at hnone
  rw [register_dept_missing u db salt d hd hnz hnone] at hr
  exact Except.noConfusion hr

/-- Witness for the amended C6: registering "bob" with the unresolvable
nonzero department reference 5 against the empty store is rejected. -/
theorem register_dept_check_nonzero_witness :
    register ⟨"bob", "pw", some 5⟩ emptyStore 3 =
      (.error ⟨400, "Department not found"⟩, emptyStore) :=
  (register_dept_check_nonzero ⟨"bob", "pw", some 5⟩ emptyStore 3 5 rfl
      (by decide)).1 (by decide)

/-- C10: calling `register` with `department_id = 0` skips the
department-existence check entirely — the user row is persisted with
department reference 0 even when no department with id 0 exists — and 0
is the only present reference value for which this is possible: any
other unresolvable value is rejected. -/
theorem register_zero_department_skips_check (u : UserCreate) (db : Store) (salt : Nat) :
    (u.department_id = some 0 →
      db.users.find? (fun x => x.username == u.username) = none →
      register u db salt =
        (.ok "User registered successfully",
          { db with
              users := db.users ++
                [⟨db.nextUserId, u.username, hash_password u.password salt, some 0⟩],
              nextUserId := db.nextUserId + 1 })) ∧
    (∀ d, u.department_id = some d → d ≠ 0 →
      (∀ dp ∈ db.departments, dp.id ≠ d) →
      register u db salt = (.error ⟨400, "Department not found"⟩, db)) := by
  constructor
  · intro h0 hfresh
    simp [register, h0, truthy, hfresh]
  · intro d hd hnz hmiss
    exact register_dept_missing u db salt d hd hnz hmiss

/-- Witness for C10: registering "carl" with `department_id = 0` against
`baseStore` (which has no department 0) persists the dangling row, while
the unresolvable nonzero reference 9 is rejected. -/
theorem register_zero_department_skips_check_witness :
    register ⟨"carl", "pw", some 0⟩ baseStore 3 =
      (.ok "User registered successfully",
        ⟨[⟨1, "Eng", "HQ"⟩], [aliceUser, ⟨2, "carl", hash_password "pw" 3, some 0⟩],
          [], 2, 3, 1⟩) ∧
    register ⟨"carl", "pw", some 9⟩ baseStore 3 =
      (.error ⟨400, "Department not found"⟩, baseStore) :=
  ⟨(register_zero_department_skips_check ⟨"carl", "pw", some 0⟩ baseStore 3).1 rfl (by rfl),
   (register_zero_department_skips_check ⟨"carl", "pw", some 9⟩ baseStore 3).2 9 rfl
      (by decide) (by decide)⟩

/-- C7: on an authenticated request, `get_user_details` for an id that
resolves to no user fails with 404 "User not found"; for a resolving id
it returns that user's id and username, the owning department's name
when the reference is set and resolves (null when unassigned), and a
salary history holding exactly the salary rows owned by that id. -/
theorem get_user_details_spec (uid : Nat) (tk : Option Token) (db : Store) (now : Nat)
    (cu : User) (hauth : access_guard tk db now = .ok cu) :
    ((∀ x ∈ db.users, x.id ≠ uid) →
      get_user_details uid tk db now = .error ⟨404, "User not found"⟩) ∧
    (∀ u, db.users.find? (fun x => x.id == uid) = some u →
      ∃ det, get_user_details uid tk db now = .ok det ∧
        det.id = u.id ∧ det.username = u.username ∧
        det.salary_history =
          (db.salaries.filter (fun s => s.user_id == uid)).map
            (fun s => ⟨s.amount, s.effective_date⟩) ∧
        (u.department_id = none → det.department = none) ∧
        (∀ d dp, u.department_id = some d →
          db.departments.find? (fun x => x.id == d) = some dp →
          det.department = some dp.name)) := by
  constructor
  · intro hmiss
    have hfind : db.users.find? (fun x => x.id == uid) = none := by
      rw [List.find?_eq_none]
      intro x hx
      simpa using hmiss x hx
    simp [get_user_details, hauth, hfind]
  · intro u hu
    refine ⟨⟨u.id, u.username,
      (match u.department_id with
       | none => none
       | some d => (db.departments.find? (fun dp => dp.id == d)).map Department.name),
      (db.salaries.filter (fun s => s.user_id == uid)).map
        (fun s => ⟨s.amount, s.effective_date⟩)⟩, ?_, rfl, rfl, rfl, ?_, ?_⟩
    · simp [get_user_details, hauth, hu]
    · intro hnone
      simp [hnone]
    · intro d dp hd hdp
      simp [hd, hdp]

/-- Witness for C7 against a store where "bob" (id 2, department "Eng")
owns two salary rows: both rows come back in order, the department name
resolves, and the unresolvable id 9999 is rejected with 404. -/
theorem get_user_details_spec_witness :
    (∃ det, get_user_details 2 (some aliceToken) richStore 0 = .ok det ∧
      det.id = 2 ∧ det.username = "bob" ∧
      det.salary_history = [⟨1000, 50⟩, ⟨1100, 80⟩] ∧
      det.department = some "Eng") ∧
    get_user_details 9999 (some aliceToken) richStore 0 =
      .error ⟨404, "User not found"⟩ := by
  constructor
  · obtain ⟨det, h1, h2, h3, h4, _h5, h6⟩ :=
      (get_user_details_spec 2 (some aliceToken) richStore 0 aliceUser (by rfl)).2
        bobUser (by rfl)
    refine ⟨det, h1, h2, h3, ?_, h6 1 ⟨1, "Eng", "HQ"⟩ rfl (by rfl)⟩
    rw [h4]
    rfl
  · exact (get_user_details_spec 9999 (some aliceToken) richStore 0 aliceUser
      (by rfl)).1 (by decide)

/-- C8: after registering a fresh username (no department reference) and
logging in with the same credentials, a bearer token comes back; GET
/users presented with that token succeeds and its list contains the new
user; the per-row serialization depends only on id, username and
department reference (so no password-derived data reaches the response);
and GET /users with no token, or with a token whose signature does not
verify, fails with a 401 and returns no user data. -/
theorem register_login_list_users (username pw : String) (db0 : Store) (salt now : Nat)
    (hfresh : db0.users.find? (fun x => x.username == username) = none) :
    (register ⟨username, pw, none⟩ db0 salt).1 = .ok "User registered successfully" ∧
    login username pw (register ⟨username, pw, none⟩ db0 salt).2 now =
      .ok ⟨create_access_token username now, "bearer"⟩ ∧
    (∃ l, get_users (some (create_access_token username now))
        (register ⟨username, pw, none⟩ db0 salt).2 now = .ok l ∧
      ∃ r ∈ l, r.username = username) ∧
    (∀ u1 u2 : User, u1.id = u2.id → u1.username = u2.username →
      u1.department_id = u2.department_id → userToResponse u1 = userToResponse u2) ∧
    get_users none (register ⟨username, pw, none⟩ db0 salt).2 now =
      .error ⟨401, "Not authenticated"⟩ ∧
    (∀ t : Token, t.sig ≠ signFn ⟨t.sub, t.exp⟩ SECRET_KEY →
      get_users (some t) (register ⟨username, pw, none⟩ db0 salt).2 now =
        .error ⟨401, "Invalid token"⟩) := by
  have hreg : register ⟨username, pw, none⟩ db0 salt =
      (.ok "User registered successfully",
        { db0 with
            users := db0.users ++ [⟨db0.nextUserId, username, hash_password pw salt, none⟩],
            nextUserId := db0.nextUserId + 1 }) := by
    simp [register, truthy, hfresh]
  have hfind1 : (register ⟨username, pw, none⟩ db0 salt).2.users.find?
      (fun u => u.username == username) =
      some ⟨db0.nextUserId, username, hash_password pw salt, none⟩ := by
    rw [hreg]
    simpa using find?_append_of_none (fun u => u.username == username) db0.users
      [⟨db0.nextUserId, username, hash_password pw salt, none⟩] hfresh
  refine ⟨?_, ?_, ?_, ?_, ?_, ?_⟩
  · rw [hreg]
  · simp [login, hfind1, verify_password, hash_password]
  · have hdec : jwtDecode (create_access_token username now) SECRET_KEY now =
        .ok ⟨some username, now + ACCESS_TOKEN_EXPIRE_MINUTES * 60⟩ := by
      simp [jwtDecode, create_access_token, jwtEncode]
    refine ⟨(register ⟨username, pw, none⟩ db0 salt).2.users.map userToResponse, ?_, ?_⟩
    · simp [get_users, access_guard, get_current_user, hdec, hfind1]
    · refine ⟨userToResponse ⟨db0.nextUserId, username, hash_password pw salt, none⟩, ?_, rfl⟩
      apply List.mem_map_of_mem
      rw [hreg]
      simp
  · intro u1 u2 h1 h2 h3
    simp [userToResponse, h1, h2, h3]
  · simp [get_users, access_guard]
  · intro t hs
    simp [get_users, access_guard, get_current_user, jwtDecode, hs]

/-- Witness for C8: the concrete flow "register bob/pw123 against the
empty store, then log in and list users". -/
theorem register_login_list_users_witness :
    (register ⟨"bob", "pw123", none⟩ emptyStore 3).1 = .ok "User registered successfully" ∧
    login "bob" "pw123" (register ⟨"bob", "pw123", none⟩ emptyStore 3).2 0 =
      .ok ⟨create_access_token "bob" 0, "bearer"⟩ ∧
    get_users none (register ⟨"bob", "pw123", none⟩ emptyStore 3).2 0 =
      .error ⟨401, "Not authenticated"⟩ := by
  obtain ⟨h1, h2, _, _, h5, _⟩ := register_login_list_users "bob" "pw123" emptyStore 3 0 rfl
  exact ⟨h1, h2, h5⟩

end Api
